import Mathlib

/-!
Shallow embedding of `qsub-status.py` (snakemake-qsub profile).

The script resolves a batch job's status through a prioritized chain of
sources: `qstat_status` (live query), `cluster_dir_status` (exit-marker
file), and `missing_status` (persisted missing-job tracker backed by
`qacct_status`).  External effects are modelled by an explicit `World`
state: the stdout of `qstat`/`qacct` (or `none` for a nonzero exit code),
the contents of the `<jobid>.exit` marker file, the modification time of
the `<jobid>.missing` marker, the current wall-clock time, and whether a
`qdel` termination request has been issued.  Python exceptions that the
script does not catch (`ZeroDivisionError`, `ValueError`, `IndexError`)
are modelled by `Option`: a `none` result of a whole-pipeline function is
an uncaught exception aborting the resolution.  Python `int` values are
`Int`, Python `float` values (timestamps, the cpu/wallclock true
division) are idealized as `ℚ`.  Python string primitives used by the
script (`str.split`, `str.strip`, `str.startswith`, `int(...)`,
`dict.get`, and the effective behaviour of the `re.search` patterns) are
re-implemented on `List Char` below, so that everything evaluates by
kernel reduction.
-/

namespace QsubStatus

/-- Status words the script can print: `running`, `success`, `failed`. -/
inductive Status where
  | running
  | success
  | failed
deriving DecidableEq

/-- Outcome of one status source: a definitive status, or the
`StatusCheckException` the script uses as a "not found by this method"
signal. -/
inductive SrcResult where
  | found (s : Status)
  | notFound
deriving DecidableEq

/-- Result of the hung-job check: whether the job was declared hung, and
whether a `qdel` termination request was issued for it. -/
structure HungResult where
  hung : Bool
  killed : Bool
deriving DecidableEq

/-- Configuration constants substituted by cookiecutter:
`cpu_hung_min_time` (minutes) and `cpu_hung_max_ratio` pass through
`int(...)`, `missing_job_wait` (minutes) through `float(...)`. -/
structure Config where
  cpu_hung_min_time : Int
  cpu_hung_max_ratio : Int
  missing_job_wait : ℚ

/-- External state of one resolution call, for a fixed job id.
`qstat_out` / `qacct_out` are the lines of the command's stdout, or
`none` when the command exits nonzero.  `exit_file` holds the lines of
`CLUSTER_DIR/<jobid>.exit` (`readlines()` result) when that file exists.
`missing_mtime` is the st_mtime of `CLUSTER_DIR/<jobid>.missing` when
that file exists.  `now` is `time.time()`.  `killed` records whether a
`qdel` was issued during this call. -/
structure World where
  qstat_out : Option (List String)
  exit_file : Option (List String)
  qacct_out : Option (List String)
  missing_mtime : Option ℚ
  now : ℚ
  killed : Bool
deriving DecidableEq

/-- Python whitespace characters recognised by `str.strip` / `str.split`. -/
def isPySpace (c : Char) : Bool :=
  c = ' ' || c = '\t' || c = '\n' || c = '\r' || c = '\x0b' || c = '\x0c'

/-- Python `s.strip()`: remove leading and trailing whitespace. -/
def pyStrip (cs : List Char) : List Char :=
  ((cs.dropWhile isPySpace).reverse.dropWhile isPySpace).reverse

/-- Python `s.startswith(pre)`. -/
def pyStartsWith (cs pre : List Char) : Bool :=
  pre.isPrefixOf cs

/-- Python `s.split(sep)` for a single-character separator: split at every
occurrence, keeping empty pieces (`"".split(":") == [""]`). -/
def splitOn (sep : Char) : List Char → List (List Char)
  | [] => [[]]
  | c :: rest =>
    match splitOn sep rest with
    | [] => [[]]
    | g :: gs => if c = sep then [] :: g :: gs else (c :: g) :: gs

/-- Decimal value of a list of digit characters. -/
def digitsToNat (cs : List Char) : Nat :=
  cs.foldl (fun a c => 10 * a + (c.toNat - 48)) 0

/-- Helper for `pyInt`: a nonempty all-digit string parses, anything else
raises `ValueError`. -/
def pyIntCore (ds : List Char) : Option Int :=
  if ds.isEmpty then none
  else if ds.all Char.isDigit then some (digitsToNat ds) else none

/-- Python `int(s)`: surrounding whitespace stripped, optional sign, then
decimal digits; `none` models the `ValueError` raised otherwise.
(Digit-group underscores are not modelled; no scheduler duration uses
them.) -/
def pyInt (cs : List Char) : Option Int :=
  match pyStrip cs with
  | '+' :: ds => pyIntCore ds
  | '-' :: ds => (pyIntCore ds).map (fun n => -n)
  | ds => pyIntCore ds

/-- Capture of `([^,]+)(,|$,\n)` at the start of `cs`: a nonempty run of
non-comma characters that must be followed by a comma.  The second
alternative `$,\n` of the source pattern can never match (nothing can
follow end-of-string), so a terminating comma is required. -/
def capture_value (cs : List Char) : Option (List Char) :=
  let run := cs.takeWhile (fun c => c ≠ ',')
  if run.isEmpty then none
  else
    match cs.dropWhile (fun c => c ≠ ',') with
    | ',' :: _ => some run
    | _ => none

/-- Leftmost match of `re.search(f"{name}=([^,]+)(,|$,\n)", line)`,
returning the first capture group: scan positions left to right, at each
one require the literal `name=` followed by a `capture_value` match. -/
def find_field_value : List Char → List Char → Option (List Char)
  | [], _ => none
  | c :: rest, pat =>
    if pyStartsWith (c :: rest) pat then
      match capture_value ((c :: rest).drop pat.length) with
      | some v => some v
      | none => find_field_value rest pat
    else find_field_value rest pat

/-- Loop body of `extract_time`: `zip(reversed(time_str.split(":")),
multipliers)` with the fixed tuple `multipliers = (1, 60, 60, 24)`,
accumulating `elapsed_time += multiplier * m * int(t)` and
`multiplier *= m`.  The zip stops when either list is exhausted, so at
most four fields (from the right) are consumed.  `none` models the
`ValueError` of `int(t)` on a non-numeric field. -/
def parse_fields : List (List Char) → List Int → Int → Int → Option Int
  | _, [], elapsed, _ => some elapsed
  | [], _, elapsed, _ => some elapsed
  | t :: ts, m :: ms, elapsed, mult =>
    match pyInt t with
    | none => none
    | some n => parse_fields ts ms (elapsed + mult * m * n) (mult * m)

/-- Duration parsing inside `extract_time`: split the captured value on
colons, reverse, and fold with the multiplier tuple `(1, 60, 60, 24)`. -/
def parse_duration (cs : List Char) : Option Int :=
  parse_fields ((splitOn ':' cs).reverse) [1, 60, 60, 24] 0 1

/-- Source `extract_time(line, time_name)`: when the regex does not match the
result is `0` seconds ("treat as zero seconds"); otherwise the captured
duration is parsed.  `none` models an uncaught `ValueError`. -/
def extract_time (line : String) (time_name : String) : Option Int :=
  match find_field_value line.toList (time_name.toList ++ ['=']) with
  | none => some 0
  | some v => parse_duration v

/-- Source `qstat_error(qstat_stdout)`: find the first line starting with
`job_state`, take `_, state = line.split(":")` (a `ValueError`, modelled
as `none`, unless the split has exactly two parts), strip it, and test
`"E" in state`.  With no such line the state stays `""`. -/
def qstat_error : List String → Option Bool
  | [] => some false
  | line :: rest =>
    if pyStartsWith line.toList "job_state".toList then
      match splitOn ':' line.toList with
      | [_, state] => some ((pyStrip state).contains 'E')
      | _ => none
    else qstat_error rest

/-- Body of the `handle_hung_qstat` loop for one `usage` line: extract
`wallclock`; below `cpu_hung_min_time * 60` the job is not hung; else
extract `cpu` and compare `cpu / wallclock < cpu_hung_max_ratio` (true
division, idealized over ℚ).  `none` models the uncaught
`ZeroDivisionError` when `wallclock = 0` reaches the division, and the
`ValueError` cases of `extract_time`.  On the hung branch the script runs
`qdel`, hence `killed := true` exactly there. -/
def eval_usage_line (line : String) (cfg : Config) : Option HungResult :=
  match extract_time line "wallclock" with
  | none => none
  | some wallclock =>
    if wallclock < cfg.cpu_hung_min_time * 60 then
      some { hung := false, killed := false }
    else
      match extract_time line "cpu" with
      | none => none
      | some cpu =>
        if wallclock = 0 then none
        else if (cpu : ℚ) / (wallclock : ℚ) < (cfg.cpu_hung_max_ratio : ℚ) then
          some { hung := true, killed := true }
        else
          some { hung := false, killed := false }

/-- Source `handle_hung_qstat(jobid, qstat_stdout, ...)`: iterate over the stdout
lines; the first line starting with `usage` is evaluated and its verdict
returned (every branch of the loop body returns); with no usage line the
job is not considered hung. -/
def handle_hung_qstat : List String → Config → Option HungResult
  | [], _ => some { hung := false, killed := false }
  | line :: rest, cfg =>
    if pyStartsWith line.toList "usage".toList then
      eval_usage_line line cfg
    else handle_hung_qstat rest cfg

/-- Source `qstat_status(jobid)`: a nonzero `qstat` exit raises
`StatusCheckException` (`notFound`); otherwise the hung check runs first
(recording a possible `qdel`), and
`status = "failed" if hung or qstat_error(stdout) else "running"` -- note
the short circuit: when the job is hung, `qstat_error` is not evaluated.
`none` models an uncaught exception from the hung check or the error
scan. -/
def qstat_status (w : World) (cfg : Config) : Option (SrcResult × World) :=
  match w.qstat_out with
  | none => some (SrcResult.notFound, w)
  | some lines =>
    match handle_hung_qstat lines cfg with
    | none => none
    | some hr =>
      let w' := { w with killed := w.killed || hr.killed }
      if hr.hung then some (SrcResult.found Status.failed, w')
      else
        match qstat_error lines with
        | none => none
        | some err =>
          some (SrcResult.found (if err then Status.failed else Status.running), w')

/-- Source `cluster_dir_status(jobid)`: a missing `<jobid>.exit` file raises
`StatusCheckException` (`notFound`); otherwise the last line of
`readlines()` is stripped (`IndexError` on an empty file, modelled as
`none`), `"0"` means success, anything else failure, and the file is
deleted on both paths before returning. -/
def cluster_dir_status (w : World) : Option (SrcResult × World) :=
  match w.exit_file with
  | none => some (SrcResult.notFound, w)
  | some lines =>
    match lines.getLast? with
    | none => none
    | some last =>
      let status :=
        if pyStrip last.toList = ['0'] then Status.success else Status.failed
      some (SrcResult.found status, { w with exit_file := none })

/-- Python `line.split(maxsplit=1)`: leading whitespace dropped; an empty
remainder gives `[]`, otherwise the first whitespace-free token, and the
remainder after the separating whitespace run when nonempty. -/
def splitMax1 (cs : List Char) : List (List Char) :=
  let t := cs.dropWhile isPySpace
  if t.isEmpty then []
  else
    let key := t.takeWhile (fun c => !isPySpace c)
    let rest := (t.dropWhile (fun c => !isPySpace c)).dropWhile isPySpace
    if rest.isEmpty then [key] else [key, rest]

/-- The `job_props` dict built by `qacct_status`: lines split with
`maxsplit=1`, lines with at most one part skipped, later assignments to
the same key overriding earlier ones (entries are prepended, lookups take
the first hit). -/
def qacct_props (lines : List String) : List (List Char × List Char) :=
  lines.foldl
    (fun props line =>
      match splitMax1 line.toList with
      | [key, value] => (pyStrip key, pyStrip value) :: props
      | _ => props)
    []

/-- Lookup `job_props.get(key)` as an optional lookup. -/
def props_lookup (props : List (List Char × List Char)) (key : List Char) :
    Option (List Char) :=
  (props.find? (fun p => p.1 = key)).map Prod.snd

/-- Python `job_props.get(key, default)`. -/
def props_get (props : List (List Char × List Char)) (key d : List Char) :
    List Char :=
  (props_lookup props key).getD d

/-- Source `qacct_status(jobid)`: nonzero `qacct` exit raises
`StatusCheckException` (`notFound`); otherwise success exactly when
`job_props.get("failed", "1") == "0"` and
`job_props.get("exit_status", "1") == "0"`, else failed. -/
def qacct_status (w : World) : SrcResult :=
  match w.qacct_out with
  | none => SrcResult.notFound
  | some lines =>
    let props := qacct_props lines
    if props_get props "failed".toList ['1'] = ['0'] ∧
        props_get props "exit_status".toList ['1'] = ['0'] then
      SrcResult.found Status.success
    else
      SrcResult.found Status.failed

/-- Source `missing_status(jobid, reset, missing_job_wait)`: with `reset` the
status stays `running`; otherwise a missing marker is created (`touch`,
stamping the current time) and `running` returned, or the elapsed minutes
since the marker's mtime are compared against `missing_job_wait`, falling
back to `qacct_status` past the deadline (a `StatusCheckException` there
meaning `failed`).  Afterwards the marker is deleted exactly when
resetting or when the status is `failed`. -/
def missing_status (w : World) (reset : Bool) (wait : ℚ) : Status × World :=
  let pair :=
    if reset then (Status.running, w)
    else
      match w.missing_mtime with
      | none => (Status.running, { w with missing_mtime := some w.now })
      | some mtime =>
        if (w.now - mtime) / 60 > wait then
          match qacct_status w with
          | SrcResult.found s => (s, w)
          | SrcResult.notFound => (Status.failed, w)
        else (Status.running, w)
  if reset = true ∨ pair.1 = Status.failed then
    (pair.1, { pair.2 with missing_mtime := none })
  else pair

/-- Source `check_status(jobid)`: try `qstat_status`; on success reset the
missing marker and return.  On `StatusCheckException` try
`cluster_dir_status` the same way.  When both raise, defer to
`missing_status` without reset.  `none` models an uncaught exception
aborting the whole resolution. -/
def check_status (w : World) (cfg : Config) : Option (Status × World) :=
  match qstat_status w cfg with
  | none => none
  | some (SrcResult.found s, w₁) =>
    some (s, (missing_status w₁ true cfg.missing_job_wait).2)
  | some (SrcResult.notFound, w₁) =>
    match cluster_dir_status w₁ with
    | none => none
    | some (SrcResult.found s, w₂) =>
      some (s, (missing_status w₂ true cfg.missing_job_wait).2)
    | some (SrcResult.notFound, w₂) =>
      some (missing_status w₂ false cfg.missing_job_wait)

/-- Modelled from the spec (section 4.1), for comparison with the source
parser: positional multiplier with "no upper bound on number of fields;
multipliers compound as 1, 60, 3600, 86400, …".  Beyond the listed days
position the compounding step is taken as a further factor 24; any
positive continuation gives the same verdicts below. -/
def spec_multiplier : Nat → Int
  | 0 => 1
  | 1 => 60
  | 2 => 3600
  | 3 => 86400
  | n + 4 => 24 * spec_multiplier (n + 3)

/-- Modelled from the spec: sum of `field value * positional multiplier`
over all fields, counting positions from the rightmost field. -/
def spec_duration_fields : List (List Char) → Nat → Option Int
  | [], _ => some 0
  | t :: ts, k =>
    match pyInt t, spec_duration_fields ts (k + 1) with
    | some n, some rest => some (spec_multiplier k * n + rest)
    | _, _ => none

/-- Modelled from the spec (section 4.1): the duration parser as the spec
words it, with unbounded positional multipliers. -/
def spec_duration (cs : List Char) : Option Int :=
  spec_duration_fields ((splitOn ':' cs).reverse) 0

/-- Modelled from the spec (claim wording): trim only trailing whitespace
from a line, for comparison with the source's two-sided `str.strip`. -/
def stripTrailing (cs : List Char) : List Char :=
  (cs.reverse.dropWhile isPySpace).reverse

/-- Weighted sum of the rightmost-first field values against the bounded
multiplier sequence 1, 60, 3600, 86400 actually realised by the source's
4-element zip. -/
def bounded_sum (rs : List Int) : Int :=
  ((rs.zip [1, 60, 3600, 86400]).map (fun p => p.1 * p.2)).sum

/-- Sample configuration: hung check after 1 minute, ratio bound 1,
missing-job grace period 1 minute. -/
def cfgUnit : Config := ⟨1, 1, 1⟩

/-- Sample configuration with `cpu_hung_min_time = 0`. -/
def cfgZeroWait : Config := ⟨0, 1, 1⟩

/-- Usage line with a healthy cpu/wallclock ratio of 1. -/
def usageLineOk : String := "usage wallclock=1:00:00,cpu=1:00:00,"

/-- Usage line with one hour of wallclock and no cpu progress. -/
def usageLineHung : String := "usage wallclock=1:00:00,cpu=0:00:00,"

/-- Usage line reporting zero wallclock seconds. -/
def usageLineZero : String := "usage wallclock=0,cpu=5,"

/-- Usage line with a wallclock field but no cpu field. -/
def usageLineNoCpu : String := "usage wallclock=1:00:00,"

/-- World where qstat answers with empty output and a missing marker from
time 5 exists at current time 9. -/
def wLive : World := ⟨some [], none, none, some 5, 9, false⟩

/-- World whose qstat output holds two usage lines: a healthy one first,
a hung one second. -/
def wTwoUsage : World := ⟨some [usageLineOk, usageLineHung], none, none, none, 0, false⟩

/-- World where both live sources fail, a missing marker from time 0 is
past the 1-minute grace period at current time 120, and qacct reports a
clean exit. -/
def wQacctSuccess : World :=
  ⟨none, none, some ["failed       0", "exit_status  0"], some 0, 120, false⟩

/-- World whose exit marker file holds the single line " 0" (leading
space). -/
def wExitSpace : World := ⟨none, some [" 0"], none, none, 0, false⟩

/-- World whose exit marker file holds the single line "0\n". -/
def wExitZero : World := ⟨none, some ["0\n"], none, none, 0, false⟩

/-- World whose exit marker file exists but is empty. -/
def wExitEmpty : World := ⟨none, some [], none, none, 0, false⟩

/-- World where every source is absent and no missing marker exists. -/
def wFresh : World := ⟨none, none, none, none, 0, false⟩

/-- World where every source is absent and a missing marker stamped at
the current time exists. -/
def wWaiting : World := ⟨none, none, none, some 0, 0, false⟩

section Helpers

lemma missing_status_reset (w : World) (wait : ℚ) :
    missing_status w true wait = (Status.running, { w with missing_mtime := none }) := by
  simp [missing_status]

lemma missing_status_fresh (w : World) (wait : ℚ) (hm : w.missing_mtime = none) :
    missing_status w false wait =
      (Status.running, { w with missing_mtime := some w.now }) := by
  simp [missing_status, hm]

lemma missing_status_early (w : World) (wait m : ℚ) (hm : w.missing_mtime = some m)
    (he : ¬ ((w.now - m) / 60 > wait)) :
    missing_status w false wait = (Status.running, w) := by
  simp [missing_status, hm, he]

lemma missing_status_late_success (w : World) (wait m : ℚ)
    (hm : w.missing_mtime = some m) (he : (w.now - m) / 60 > wait)
    (hq : qacct_status w = SrcResult.found Status.success) :
    missing_status w false wait = (Status.success, w) := by
  simp [missing_status, hm, he, hq]

lemma missing_status_late_failed (w : World) (wait m : ℚ)
    (hm : w.missing_mtime = some m) (he : (w.now - m) / 60 > wait)
    (hq : qacct_status w = SrcResult.found Status.failed ∨
      qacct_status w = SrcResult.notFound) :
    missing_status w false wait = (Status.failed, { w with missing_mtime := none }) := by
  rcases hq with hq | hq <;> simp [missing_status, hm, he, hq]

end Helpers

/-- Claim C6: one resolution call tries the live query source, then the
exit-file side channel, then the missing-job fallback, in that fixed
order, and returns the first definitive status; whenever either of the
first two sources resolves (running, success or failed), the missing
marker is deleted before that status is returned. -/
theorem check_status_chain (w : World) (cfg : Config) :
    (∀ s w₁, qstat_status w cfg = some (SrcResult.found s, w₁) →
      check_status w cfg = some (s, { w₁ with missing_mtime := none })) ∧
    (∀ w₁ s w₂, qstat_status w cfg = some (SrcResult.notFound, w₁) →
      cluster_dir_status w₁ = some (SrcResult.found s, w₂) →
      check_status w cfg = some (s, { w₂ with missing_mtime := none })) ∧
    (∀ w₁ w₂, qstat_status w cfg = some (SrcResult.notFound, w₁) →
      cluster_dir_status w₁ = some (SrcResult.notFound, w₂) →
      check_status w cfg = some (missing_status w₂ false cfg.missing_job_wait)) := by
  refine ⟨?_, ?_, ?_⟩
  · intro s w₁ h
    simp [check_status, h, missing_status_reset]
  · intro w₁ s w₂ h1 h2
    simp [check_status, h1, h2, missing_status_reset]
  · intro w₁ w₂ h1 h2
    simp [check_status, h1, h2]

/-- Witness for C6: with a live qstat answer the resolution returns
running and the missing marker is gone. -/
theorem check_status_chain_witness :
    check_status wLive cfgUnit =
      some (Status.running, { wLive with missing_mtime := none }) :=
  (check_status_chain wLive cfgUnit).1 Status.running wLive (by decide)

/-- Claim C9: when both live sources fail to resolve the job, a first
contact (no missing marker) creates a marker stamped with the current
time and returns running; a later contact with elapsed time still below
the grace period returns running with the marker unchanged. -/
theorem missing_tracker_wait (w : World) (cfg : Config)
    (hq : w.qstat_out = none) (he : w.exit_file = none) :
    (w.missing_mtime = none →
      check_status w cfg =
        some (Status.running, { w with missing_mtime := some w.now })) ∧
    (∀ m, w.missing_mtime = some m → (w.now - m) / 60 < cfg.missing_job_wait →
      check_status w cfg = some (Status.running, w)) := by
  have hq' : qstat_status w cfg = some (SrcResult.notFound, w) := by
    simp [qstat_status, hq]
  have hc' : cluster_dir_status w = some (SrcResult.notFound, w) := by
    simp [cluster_dir_status, he]
  have hchain : check_status w cfg =
      some (missing_status w false cfg.missing_job_wait) := by
    simp [check_status, hq', hc']
  refine ⟨fun hm => ?_, fun m hm helapsed => ?_⟩
  · rw [hchain, missing_status_fresh w cfg.missing_job_wait hm]
  · rw [hchain, missing_status_early w cfg.missing_job_wait m hm (lt_asymm helapsed)]

/-- Witness for C9: a fresh job id yields running and a marker stamped
with the current time now exists. -/
theorem missing_tracker_wait_witness :
    check_status wFresh cfgUnit =
      some (Status.running, { wFresh with missing_mtime := some wFresh.now }) :=
  (missing_tracker_wait wFresh cfgUnit rfl rfl).1 rfl

/-- Claim C10: an exit marker file that exists but contains zero lines
makes the side channel neither return a status nor raise the NotFound
signal: the last-line indexing fails, aborting the whole resolution
instead of falling through to the next source. -/
theorem empty_exit_file_aborts (w : World) (cfg : Config)
    (hq : w.qstat_out = none) (he : w.exit_file = some []) :
    cluster_dir_status w = none ∧ check_status w cfg = none := by
  have hc : cluster_dir_status w = none := by simp [cluster_dir_status, he]
  have hq' : qstat_status w cfg = some (SrcResult.notFound, w) := by
    simp [qstat_status, hq]
  exact ⟨hc, by simp [check_status, hq', hc]⟩

/-- Witness for C10: the concrete empty exit file aborts resolution. -/
theorem empty_exit_file_aborts_witness :
    cluster_dir_status wExitEmpty = none ∧ check_status wExitEmpty cfgUnit = none :=
  empty_exit_file_aborts wExitEmpty cfgUnit rfl rfl

/-- Claim C7: the accounting source raises the NotFound signal exactly
when the accounting query exits nonzero; otherwise it returns success if
and only if the parsed map has failed = "0" and exit_status = "0", a
missing key defaulting to the sentinel "1" (never "0") and hence
yielding failed; and it never returns running. -/
theorem qacct_contract (w : World) (lines : List String) :
    (w.qacct_out = none ↔ qacct_status w = SrcResult.notFound) ∧
    (w.qacct_out = some lines →
      ((qacct_status w = SrcResult.found Status.success ↔
        (props_get (qacct_props lines) "failed".toList ['1'] = ['0'] ∧
         props_get (qacct_props lines) "exit_status".toList ['1'] = ['0'])) ∧
       (props_lookup (qacct_props lines) "failed".toList = none →
        qacct_status w = SrcResult.found Status.failed) ∧
       (props_lookup (qacct_props lines) "exit_status".toList = none →
        qacct_status w = SrcResult.found Status.failed))) ∧
    qacct_status w ≠ SrcResult.found Status.running := by
  refine ⟨?_, ?_, ?_⟩
  · cases hq : w.qacct_out with
    | none => simp [qacct_status, hq]
    | some ls =>
      simp only [qacct_status, hq]
      apply iff_of_false
      · simp
      · split <;> simp
  · intro hl
    have hqs : qacct_status w =
        (if props_get (qacct_props lines) "failed".toList ['1'] = ['0'] ∧
            props_get (qacct_props lines) "exit_status".toList ['1'] = ['0'] then
          SrcResult.found Status.success
        else SrcResult.found Status.failed) := by
      simp [qacct_status, hl]
    refine ⟨?_, ?_, ?_⟩
    · rw [hqs]
      by_cases hP : props_get (qacct_props lines) "failed".toList ['1'] = ['0'] ∧
          props_get (qacct_props lines) "exit_status".toList ['1'] = ['0']
      · simp [hP]
      · simp [hP]
    · intro hk
      have hdef : props_get (qacct_props lines) "failed".toList ['1'] = ['1'] := by
        unfold props_get
        rw [hk]
        rfl
      rw [hqs, if_neg]
      rintro ⟨h1, -⟩
      rw [hdef] at h1
      exact absurd h1 (by decide)
    · intro hk
      have hdef : props_get (qacct_props lines) "exit_status".toList ['1'] = ['1'] := by
        unfold props_get
        rw [hk]
        rfl
      rw [hqs, if_neg]
      rintro ⟨-, h1⟩
      rw [hdef] at h1
      exact absurd h1 (by decide)
  · cases hq : w.qacct_out with
    | none => simp [qacct_status, hq]
    | some ls =>
      simp only [qacct_status, hq]
      split <;> simp

/-- Witness for C7: a clean accounting record resolves to success. -/
theorem qacct_contract_witness :
    qacct_status wQacctSuccess = SrcResult.found Status.success :=
  ((qacct_contract wQacctSuccess ["failed       0", "exit_status  0"]).2.1
    rfl).1.mpr (by decide)

/-- Counterexample to C8 as stated: the source strips the last line on
both sides, so the line " 0" (with leading whitespace) yields success,
while trimming only trailing whitespace leaves " 0", which is not the
literal "0" and under the claim would have to yield failed. -/
theorem cluster_strip_leading_cex :
    stripTrailing " 0".toList ≠ "0".toList ∧
    cluster_dir_status wExitSpace =
      some (SrcResult.found Status.success, { wExitSpace with exit_file := none }) := by
  decide

/-- Claim C8 (amended): when an exit marker file exists, its last line is
trimmed of leading and trailing whitespace (Python `str.strip`, not a
trailing-only trim); the result is success iff that trimmed line is the
literal "0", failed otherwise; the file is deleted on both paths; a
missing file raises the NotFound signal. -/
theorem cluster_dir_contract (w : World) :
    (w.exit_file = none → cluster_dir_status w = some (SrcResult.notFound, w)) ∧
    (∀ lines last, w.exit_file = some lines → lines.getLast? = some last →
      cluster_dir_status w =
        some (SrcResult.found
            (if pyStrip last.toList = ['0'] then Status.success else Status.failed),
          { w with exit_file := none })) := by
  refine ⟨fun he => by simp [cluster_dir_status, he], fun lines last hl hlast => ?_⟩
  simp [cluster_dir_status, hl, hlast]

/-- Witness for C8: an exit file whose line is "0" plus newline yields
success and the file is deleted. -/
theorem cluster_dir_contract_witness :
    cluster_dir_status wExitZero =
      some (SrcResult.found Status.success, { wExitZero with exit_file := none }) := by
  have h := (cluster_dir_contract wExitZero).2 ["0\n"] "0\n" rfl rfl
  rw [h]
  decide

/-- Counterexample to C1 as stated: past the grace period with accounting
reporting failed="0" and exit_status="0", the fallback returns success
but the missing marker file is NOT deleted (deletion happens only on the
failed path or on reset). -/
theorem missing_success_marker_cex :
    (missing_status wQacctSuccess false 1).1 = Status.success ∧
    (missing_status wQacctSuccess false 1).2.missing_mtime = some 0 := by
  have he : (wQacctSuccess.now - 0) / 60 > 1 := by
    show (1 : ℚ) < ((120 : ℚ) - 0) / 60
    rw [sub_zero]
    exact (one_lt_div (by norm_num)).mpr (by norm_num)
  rw [missing_status_late_success wQacctSuccess 1 0 rfl he (by decide)]
  exact ⟨rfl, rfl⟩

/-- Claim C1 (amended): after the grace period elapses, a failed terminal
outcome (accounting failed, or accounting NotFound) deletes the missing
marker before the status is returned; a success outcome via accounting
(failed="0", exit_status="0") returns success but leaves the missing
marker in place. -/
theorem missing_terminal_marker (w : World) (cfg : Config) (m : ℚ)
    (hq : w.qstat_out = none) (hx : w.exit_file = none)
    (hm : w.missing_mtime = some m)
    (he : (w.now - m) / 60 > cfg.missing_job_wait) :
    (qacct_status w = SrcResult.found Status.failed ∨
        qacct_status w = SrcResult.notFound →
      check_status w cfg = some (Status.failed, { w with missing_mtime := none })) ∧
    (qacct_status w = SrcResult.found Status.success →
      check_status w cfg = some (Status.success, w)) := by
  have hq' : qstat_status w cfg = some (SrcResult.notFound, w) := by
    simp [qstat_status, hq]
  have hc' : cluster_dir_status w = some (SrcResult.notFound, w) := by
    simp [cluster_dir_status, hx]
  have hchain : check_status w cfg =
      some (missing_status w false cfg.missing_job_wait) := by
    simp [check_status, hq', hc']
  exact ⟨fun h => by
      rw [hchain, missing_status_late_failed w cfg.missing_job_wait m hm he h],
    fun h => by
      rw [hchain, missing_status_late_success w cfg.missing_job_wait m hm he h]⟩

/-- Witness for C1 (amended): the concrete clean accounting record past
the grace period resolves to success with the marker still present. -/
theorem missing_terminal_marker_witness :
    check_status wQacctSuccess cfgUnit = some (Status.success, wQacctSuccess) := by
  have he : (wQacctSuccess.now - 0) / 60 > cfgUnit.missing_job_wait := by
    show (1 : ℚ) < ((120 : ℚ) - 0) / 60
    rw [sub_zero]
    exact (one_lt_div (by decide)).mpr (by decide)
  exact (missing_terminal_marker wQacctSuccess cfgUnit 0 rfl rfl rfl he).2 (by decide)

/-- Counterexample to C2 as stated: with `cpu_hung_min_time = 0`, a usage
line reporting zero wallclock reaches the division cpu/wallclock and
raises ZeroDivisionError (modelled `none`) instead of returning a
not-hung verdict. -/
theorem hung_zero_wallclock_cex :
    extract_time usageLineZero "wallclock" = some 0 ∧
    handle_hung_qstat [usageLineZero] cfgZeroWait = none := by
  decide

/-- Claim C2 (amended): for a usage line whose wallclock duration is 0
seconds, the detector returns not-hung without evaluating the
cpu/wallclock ratio whenever the configured minimum wait is positive; but
with minimum wait 0 the zero wallclock reaches the division and raises
ZeroDivisionError, aborting the resolution. -/
theorem hung_zero_wallclock (line : String) (cfg : Config)
    (hw : extract_time line "wallclock" = some 0) :
    (0 < cfg.cpu_hung_min_time →
      eval_usage_line line cfg = some { hung := false, killed := false }) ∧
    (cfg.cpu_hung_min_time = 0 → eval_usage_line line cfg = none) := by
  constructor
  · intro hpos
    have h60 : (0 : Int) < cfg.cpu_hung_min_time * 60 := mul_pos hpos (by norm_num)
    simp [eval_usage_line, hw, h60]
  · intro hzero
    rcases hc : extract_time line "cpu" with _ | c
    · simp [eval_usage_line, hw, hzero, hc]
    · simp [eval_usage_line, hw, hzero, hc]

/-- Witness for C2 (amended): zero wallclock with a 1-minute minimum wait
is not hung and no division happens. -/
theorem hung_zero_wallclock_witness :
    eval_usage_line usageLineZero cfgUnit = some { hung := false, killed := false } :=
  (hung_zero_wallclock usageLineZero cfgUnit (by decide)).1 (by decide)

/-- Counterexample to C3 as stated: a usage line whose cpu field is
absent is treated as cpu = 0 seconds, and with an hour of wallclock the
detector declares the job hung and issues the qdel termination request,
rather than returning not-hung. -/
theorem hung_missing_cpu_cex :
    find_field_value usageLineNoCpu.toList ("cpu".toList ++ ['=']) = none ∧
    handle_hung_qstat [usageLineNoCpu] cfgUnit = some { hung := true, killed := true } := by
  constructor
  · decide
  · have hw : extract_time usageLineNoCpu "wallclock" = some 3600 := by decide
    have hc : extract_time usageLineNoCpu "cpu" = some 0 := by decide
    have hs : pyStartsWith usageLineNoCpu.toList "usage".toList = true := by decide
    simp only [handle_hung_qstat, hs, if_true, eval_usage_line, hw, hc, cfgUnit]
    norm_num

/-- Claim C3 (amended): a usage line with no wallclock field is treated
as wallclock = 0 and (for a positive minimum wait) yields not-hung with
no termination request; but a usage line with a wallclock at or beyond
the threshold and no cpu field is treated as cpu = 0 and is declared
hung, with a termination request issued, whenever the configured maximum
ratio is positive. -/
theorem hung_missing_fields (line : String) (cfg : Config) :
    (find_field_value line.toList ("wallclock".toList ++ ['=']) = none →
      0 < cfg.cpu_hung_min_time →
      eval_usage_line line cfg = some { hung := false, killed := false }) ∧
    (∀ n : Int, find_field_value line.toList ("cpu".toList ++ ['=']) = none →
      extract_time line "wallclock" = some n →
      cfg.cpu_hung_min_time * 60 ≤ n → 0 < n → 0 < cfg.cpu_hung_max_ratio →
      eval_usage_line line cfg = some { hung := true, killed := true }) := by
  constructor
  · intro hfw hpos
    have hw : extract_time line "wallclock" = some 0 := by
      unfold extract_time
      rw [hfw]
    have h60 : (0 : Int) < cfg.cpu_hung_min_time * 60 := mul_pos hpos (by norm_num)
    simp [eval_usage_line, hw, h60]
  · intro n hfc hw hge hnpos hrpos
    have hc : extract_time line "cpu" = some 0 := by
      unfold extract_time
      rw [hfc]
    have hnlt : ¬ (n < cfg.cpu_hung_min_time * 60) := not_lt.mpr hge
    have hnz : n ≠ 0 := ne_of_gt hnpos
    have hr' : (0 : ℚ) < (cfg.cpu_hung_max_ratio : ℚ) := by exact_mod_cast hrpos
    simp [eval_usage_line, hw, hc, hnlt, hnz, hr', hrpos]

/-- Witness for C3 (amended): the cpu-less hour-long usage line is hung
and killed under the sample configuration. -/
theorem hung_missing_fields_witness :
    eval_usage_line usageLineNoCpu cfgUnit = some { hung := true, killed := true } :=
  (hung_missing_fields usageLineNoCpu cfgUnit).2 3600 (by decide) (by decide)
    (by decide) (by decide) (by decide)

lemma parse_fields_bounded (ts : List (List Char))
    (h : ∀ f ∈ ts, (pyInt f).isSome) :
    parse_fields ts [1, 60, 60, 24] 0 1 =
      some (bounded_sum (ts.map (fun f => (pyInt f).getD 0))) := by
  rcases ts with _ | ⟨a, _ | ⟨b, _ | ⟨c, _ | ⟨d, rest⟩⟩⟩⟩
  · simp [parse_fields, bounded_sum]
  · obtain ⟨na, hna⟩ := Option.isSome_iff_exists.mp (h a (by simp))
    simp [parse_fields, bounded_sum, hna]
    try ring
  · obtain ⟨na, hna⟩ := Option.isSome_iff_exists.mp (h a (by simp))
    obtain ⟨nb, hnb⟩ := Option.isSome_iff_exists.mp (h b (by simp))
    simp [parse_fields, bounded_sum, hna, hnb]
    try ring
  · obtain ⟨na, hna⟩ := Option.isSome_iff_exists.mp (h a (by simp))
    obtain ⟨nb, hnb⟩ := Option.isSome_iff_exists.mp (h b (by simp))
    obtain ⟨nc, hnc⟩ := Option.isSome_iff_exists.mp (h c (by simp))
    simp [parse_fields, bounded_sum, hna, hnb, hnc]
    try ring
  · obtain ⟨na, hna⟩ := Option.isSome_iff_exists.mp (h a (by simp))
    obtain ⟨nb, hnb⟩ := Option.isSome_iff_exists.mp (h b (by simp))
    obtain ⟨nc, hnc⟩ := Option.isSome_iff_exists.mp (h c (by simp))
    obtain ⟨nd, hnd⟩ := Option.isSome_iff_exists.mp (h d (by simp))
    simp [parse_fields, bounded_sum, hna, hnb, hnc, hnd]
    try ring

/-- Counterexample to C4 as stated: a five-field duration string loses
its leftmost field - the source parses "1:0:0:0:0" as 0 seconds (the zip
against the fixed 4-tuple drops it), while the spec-worded unbounded
parser yields 2073600. -/
theorem parse_duration_unbounded_cex :
    parse_duration "1:0:0:0:0".toList = some 0 ∧
    spec_duration "1:0:0:0:0".toList = some 2073600 ∧
    parse_duration "1:0:0:0:0".toList ≠ spec_duration "1:0:0:0:0".toList := by
  decide

/-- Claim C4 (amended): the duration parser returns the sum of field
value times positional multiplier over at most the rightmost four
colon-separated fields, with multipliers 1, 60, 3600, 86400 counting
from the right; any fields further left are ignored; in particular
"01:02:03" parses to 3723 seconds and "1:00:00:00" to 86400 seconds. -/
theorem parse_duration_bounded (cs : List Char)
    (h : ∀ f ∈ splitOn ':' cs, (pyInt f).isSome) :
    parse_duration cs =
      some (bounded_sum (((splitOn ':' cs).reverse).map (fun f => (pyInt f).getD 0))) ∧
    parse_duration "01:02:03".toList = some 3723 ∧
    parse_duration "1:00:00:00".toList = some 86400 := by
  refine ⟨?_, by decide, by decide⟩
  have h' : ∀ f ∈ (splitOn ':' cs).reverse, (pyInt f).isSome := fun f hf =>
    h f (List.mem_reverse.mp hf)
  exact parse_fields_bounded _ h'

/-- Witness for C4 (amended): the bounded-sum formula evaluated at the
concrete duration "01:02:03". -/
theorem parse_duration_bounded_witness :
    parse_duration "01:02:03".toList =
      some (bounded_sum (((splitOn ':' "01:02:03".toList).reverse).map
        (fun f => (pyInt f).getD 0))) :=
  (parse_duration_bounded "01:02:03".toList (by decide)).1

/-- Counterexample to C5 as stated: the live-query output holds two usage
lines; the detector finds the second hung, yet only the first is ever
evaluated, so the live source returns running rather than failed. -/
theorem qstat_second_usage_cex :
    eval_usage_line usageLineHung cfgUnit = some { hung := true, killed := true } ∧
    qstat_status wTwoUsage cfgUnit = some (SrcResult.found Status.running, wTwoUsage) := by
  have hw2 : extract_time usageLineHung "wallclock" = some 3600 := by decide
  have hc2 : extract_time usageLineHung "cpu" = some 0 := by decide
  have h2 : eval_usage_line usageLineHung cfgUnit = some { hung := true, killed := true } := by
    simp only [eval_usage_line, hw2, hc2, cfgUnit]
    norm_num
  have hw1 : extract_time usageLineOk "wallclock" = some 3600 := by decide
  have hc1 : extract_time usageLineOk "cpu" = some 3600 := by decide
  have h1 : eval_usage_line usageLineOk cfgUnit = some { hung := false, killed := false } := by
    simp only [eval_usage_line, hw1, hc1, cfgUnit]
    norm_num
  have hs : pyStartsWith usageLineOk.toList "usage".toList = true := by decide
  have hh : handle_hung_qstat [usageLineOk, usageLineHung] cfgUnit =
      some { hung := false, killed := false } := by
    simp only [handle_hung_qstat, hs, if_true, h1]
  have herr : qstat_error [usageLineOk, usageLineHung] = some false := by decide
  refine ⟨h2, ?_⟩
  simp [qstat_status, wTwoUsage, hh, herr]

/-- Claim C5 (amended): the hung check inspects exactly the first usage
line of the live-query output (the one `List.find?` locates): when that
line yields a hung verdict the live source returns failed regardless of
the job-state marker, and with no error marker and a non-hung (or
absent) first usage line it returns running. -/
theorem qstat_first_usage (w : World) (cfg : Config) (lines : List String) :
    handle_hung_qstat lines cfg =
      (match lines.find? (fun l => pyStartsWith l.toList "usage".toList) with
       | none => some { hung := false, killed := false }
       | some l => eval_usage_line l cfg) ∧
    (w.qstat_out = some lines →
      ((∀ k, handle_hung_qstat lines cfg = some { hung := true, killed := k } →
        qstat_status w cfg =
          some (SrcResult.found Status.failed, { w with killed := w.killed || k })) ∧
       (handle_hung_qstat lines cfg = some { hung := false, killed := false } →
        qstat_error lines = some false →
        qstat_status w cfg =
          some (SrcResult.found Status.running, { w with killed := w.killed || false })))) := by
  constructor
  · induction lines with
    | nil => simp [handle_hung_qstat]
    | cons l rest ih =>
      cases hs : pyStartsWith l.toList "usage".toList
      all_goals simp only [String.toList] at hs
      · simp [handle_hung_qstat, List.find?, hs, ih]
      · simp [handle_hung_qstat, List.find?, hs]
  · intro hl
    constructor
    · intro k hh
      simp [qstat_status, hl, hh]
    · intro hh herr
      simp [qstat_status, hl, hh, herr]

/-- Witness for C5 (amended): empty live output has no usage line and no
error marker, so the live source reports running. -/
theorem qstat_first_usage_witness :
    qstat_status wLive cfgUnit =
      some (SrcResult.found Status.running, { wLive with killed := wLive.killed || false }) :=
  ((qstat_first_usage wLive cfgUnit []).2 rfl).2 (by decide) (by decide)

end QsubStatus
